import Mathlib

/-!
Shallow embedding of the approval subsystem of `src/app/routers/approvals.py`
(studiowaai/waai_dashboard_api).  Database tables become lists of rows, the
SQL statements the handlers issue become pure functions on that state, and
the outbound HTTP calls (webhook dispatch, asset fetch) become explicit
oracle parameters describing the network outcome.  Machine integers are
modelled with Nat/Int; timestamps are opaque Nat values passed in as `now`.
-/

namespace Approvals

/-- JSON-like values, modelling the opaque `data`/`metadata` payloads
(Python dicts are association lists in insertion order, as in CPython). -/
inductive JVal where
  | null : JVal
  | bool (b : Bool) : JVal
  | num (n : Int) : JVal
  | str (s : String) : JVal
  | arr (xs : List JVal) : JVal
  | obj (kvs : List (String × JVal)) : JVal
deriving Repr

/-- Python string truthiness for an optional column: `if x:` is false for
both SQL NULL (None) and the empty string. -/
def pyTruthyStr : Option String → Bool
  | none => false
  | some s => !s.isEmpty

/-- Row of the `approvals` table.  `typ` stands for the `type` column
(`type` is a Lean keyword). -/
structure Approval where
  id : String
  org_id : String
  typ : String
  status : String
  title : String
  data : Option JVal
  n8n_execute_webhook_url : Option String
  created_at : Nat
  updated_at : Nat
  approved_at : Option Nat
  approved_by_user_id : Option String
deriving Repr

/-- Row of the `approval_assets` table. -/
structure AssetRow where
  id : String
  approval_id : String
  role : String
  external_url : Option String
  storage_provider : Option String
  storage_key : Option String
  filename : Option String
  mime_type : Option String
  size_bytes : Option Int
  created_at : Nat
deriving Repr

/-- Row of the `approval_events` table (`created_at` is filled in by a
database default and carries no information the claims need). -/
structure ApprovalEvent where
  approval_id : String
  event : String
  by_user_id : Option String
  metadata : List (String × JVal)
deriving Repr

/-- Row of the `organizations` table (only the column the approval
subsystem reads). -/
structure Org where
  id : String
  n8n_approval_webhook_url : Option String
deriving Repr

/-- The relational state the approval endpoints touch. -/
structure DB where
  approvals : List Approval
  assets : List AssetRow
  events : List ApprovalEvent
  orgs : List Org
deriving Repr

/-- Authenticated caller, as produced by `deps.authed`. -/
structure Authed where
  user_id : String
  org_id : String
  role : String
deriving Repr

/-! ## Upstream error classification (`classify_upstream_error`) -/

/-- The `UpstreamErrorKind` enum. -/
inductive UpstreamErrorKind where
  | EXPIRED
  | FORBIDDEN
  | NOT_FOUND
  | UNAVAILABLE
  | UNKNOWN
deriving DecidableEq, Repr

/-- Word character in the sense of the regex `\w` (the error codes at play
are ASCII, so the ASCII reading is faithful here). -/
def isWordChar (c : Char) : Bool := c.isAlphanum || c == '_'

/-- Boolean prefix test on character lists. -/
def listIsPrefixOf : List Char → List Char → Bool
  | [], _ => true
  | _ :: _, [] => false
  | c :: cs, d :: ds => c == d && listIsPrefixOf cs ds

/-- Split off the maximal leading run of word characters. -/
def takeWordRun : List Char → List Char × List Char
  | [] => ([], [])
  | c :: cs =>
    if isWordChar c then
      let p := takeWordRun cs
      (c :: p.1, p.2)
    else ([], c :: cs)

/-- Scan for the first occurrence of `<Code>(\w+)</Code>`, i.e. a literal
open tag, a nonempty word-character run, and the immediate close tag.
Because the close tag starts with a non-word character, the maximal run
followed by the close tag is exactly what `re.search` accepts. -/
def scanForCode : List Char → Option String
  | [] => none
  | c :: cs =>
    if listIsPrefixOf "<Code>".data (c :: cs) then
      let afterOpen := (c :: cs).drop 6
      let p := takeWordRun afterOpen
      if !p.1.isEmpty && listIsPrefixOf "</Code>".data p.2 then
        some (String.mk p.1)
      else scanForCode cs
    else scanForCode cs

/-- Truncation of the response body to the first 10KB, as done before
parsing (`body[:10240] if len(body) > 10240 else body`). -/
def truncateBody (b : String) : String :=
  if b.length > 10240 then b.take 10240 else b

/-- Error-code extraction from the body.  The source first attempts an XML
parse looking for a `.//Code` element and falls back, on a parse error, to
the tolerant pattern `<Code>(\w+)</Code>`; on the well-formed
`<Error><Code>C</Code></Error>` documents the upstream produces the two
agree, and the embedding uses the tolerant pattern as the single
extraction function. -/
def extract_error_code (b : String) : Option String :=
  scanForCode (truncateBody b).data

/-- Error code available to the classifier: the body is only parsed when
it is truthy (`if body:` skips both None and the empty string). -/
def errorCodeOf (body : Option String) : Option String :=
  if pyTruthyStr body then extract_error_code (body.getD "") else none

/-- Classification of an upstream (MinIO/S3-style) error from the HTTP
status code and optional response body, following
`classify_upstream_error`: an extracted error code takes precedence, then
the bare status code decides. -/
def classify_upstream_error (status_code : Nat) (body : Option String) : UpstreamErrorKind :=
  match errorCodeOf body with
  | some c =>
    if c = "ExpiredToken" ∨ c = "RequestExpired" ∨ c = "TokenRefreshRequired" then
      .EXPIRED
    else if c = "NoSuchKey" then
      .NOT_FOUND
    else if c = "AccessDenied" ∨ c = "InvalidAccessKeyId" ∨ c = "SignatureDoesNotMatch" then
      .FORBIDDEN
    else if status_code = 404 then .NOT_FOUND
    else if status_code = 403 then .FORBIDDEN
    else if 400 ≤ status_code ∧ status_code < 500 then .FORBIDDEN
    else if 500 ≤ status_code ∧ status_code < 600 then .UNAVAILABLE
    else .UNKNOWN
  | none =>
    if status_code = 404 then .NOT_FOUND
    else if status_code = 403 then .FORBIDDEN
    else if 400 ≤ status_code ∧ status_code < 500 then .FORBIDDEN
    else if 500 ≤ status_code ∧ status_code < 600 then .UNAVAILABLE
    else .UNKNOWN

example : classify_upstream_error 403 (some "<Error><Code>NoSuchKey</Code></Error>") =
    UpstreamErrorKind.NOT_FOUND := by decide

example : classify_upstream_error 403 (some "") = UpstreamErrorKind.FORBIDDEN := by decide

example : classify_upstream_error 500 none = UpstreamErrorKind.UNAVAILABLE := by decide

/-! ## Shared helpers: Python dict semantics, sorting, row lookup -/

/-- Lookup in an insertion-ordered dict. -/
def dictGet (kvs : List (String × JVal)) (k : String) : Option JVal :=
  (kvs.find? (fun p => p.1 == k)).map (fun p => p.2)

/-- Python `d[k] = v`: replace in place when the key exists, else append. -/
def dictSet (kvs : List (String × JVal)) (k : String) (v : JVal) : List (String × JVal) :=
  if kvs.any (fun p => p.1 == k) then
    kvs.map (fun p => if p.1 == k then (p.1, v) else p)
  else kvs ++ [(k, v)]

/-- Insertion into a list sorted by `le` (used to model SQL ORDER BY). -/
def insertOrdered {α : Type} (le : α → α → Bool) (a : α) : List α → List α
  | [] => [a]
  | b :: rest => if le a b then a :: b :: rest else b :: insertOrdered le a rest

/-- Insertion sort by `le` (used to model SQL ORDER BY). -/
def sortedBy {α : Type} (le : α → α → Bool) : List α → List α
  | [] => []
  | a :: rest => insertOrdered le a (sortedBy le rest)

theorem length_insertOrdered {α : Type} (le : α → α → Bool) (a : α) (l : List α) :
    (insertOrdered le a l).length = l.length + 1 := by
  induction l with
  | nil => rfl
  | cons b rest ih =>
    simp only [insertOrdered]
    split
    · simp
    · simp [ih]

theorem length_sortedBy {α : Type} (le : α → α → Bool) (l : List α) :
    (sortedBy le l).length = l.length := by
  induction l with
  | nil => rfl
  | cons a rest ih => simp [sortedBy, length_insertOrdered, ih]

/-- SELECT of an approval scoped to `(id, org_id)`. -/
def findApprovalForOrg (db : DB) (approval_id org_id : String) : Option Approval :=
  db.approvals.find? (fun a => a.id == approval_id && a.org_id == org_id)

/-- SELECT of the assets of one approval, ORDER BY created_at. -/
def assetsOfApproval (db : DB) (approval_id : String) : List AssetRow :=
  sortedBy (fun x y => decide (x.created_at ≤ y.created_at))
    (db.assets.filter (fun aa => aa.approval_id == approval_id))

/-- INSERT INTO approval_events — the audit log is append-only. -/
def log_approval_event (db : DB) (approval_id : String) (event : String)
    (user_id : Option String) (metadata : List (String × JVal)) : DB :=
  { db with events := db.events ++
      [{ approval_id := approval_id, event := event, by_user_id := user_id,
         metadata := metadata }] }

/-- Client errors raised via HTTPException: `notFound` is the 404 and
`invalidState` the 400 state-machine guard. -/
inductive ApiError where
  | notFound (detail : String)
  | invalidState (detail : String)
deriving Repr

/-- Body of the approve/reject JSON response. -/
structure ApprovalActionResponse where
  ok : Bool
  message : String
  approval_id : String
  status : String
deriving Repr

/-- Ghost record of one row-level write of the `status` column, carrying
the overwritten value and whether the same UPDATE also wrote
`approved_by_user_id`/`approved_at`. -/
structure StatusWrite where
  approval_id : String
  old : String
  new : String
  setsApprovalFields : Bool
deriving Repr

/-- Effect of the UPDATE statement on one row: rows whose `id` matches get
the new status (and, when `fields` is present, `approved_by_user_id` and
`approved_at`); other rows are untouched. -/
def applyStatusUpdate (approval_id new_status : String)
    (fields : Option (String × Nat)) (a : Approval) : Approval :=
  if a.id == approval_id then
    match fields with
    | some uidNow =>
      { a with status := new_status, approved_by_user_id := some uidNow.1,
               approved_at := some uidNow.2 }
    | none => { a with status := new_status }
  else a

/-- One `UPDATE approvals SET status = … WHERE id = …` statement.  When
`fields` is present the statement also sets `approved_by_user_id` and
`approved_at` (as the approve/reject first transition does).  The returned
list is the ghost trace of per-row status writes. -/
def execUpdateStatus (db : DB) (approval_id new_status : String)
    (fields : Option (String × Nat)) : DB × List StatusWrite :=
  let writes := (db.approvals.filter (fun a => a.id == approval_id)).map
    (fun a => { approval_id := approval_id, old := a.status, new := new_status,
                setsApprovalFields := fields.isSome })
  ({ db with approvals := db.approvals.map (applyStatusUpdate approval_id new_status fields) },
   writes)

/-! ## Approve operation -/

/-- Outcome of the outbound POST to the resolved webhook URL. -/
inductive WebhookOutcome where
  | response (status_code : Nat)
  | netError (msg : String)
deriving Repr

/-- Resolution of the dispatch URL: the approval's own
`n8n_execute_webhook_url` when truthy, else the owning organization's
`n8n_approval_webhook_url` when truthy, else nothing (no POST happens). -/
def resolveWebhookUrl (orgs : List Org) (row : Approval) : Option String :=
  if pyTruthyStr row.n8n_execute_webhook_url then row.n8n_execute_webhook_url
  else
    match orgs.find? (fun o => o.id == row.org_id) with
    | some o =>
      if pyTruthyStr o.n8n_approval_webhook_url then o.n8n_approval_webhook_url else none
    | none => none

/-- Optional text column as a JSON value (None becomes null). -/
def jvalOfOptStr : Option String → JVal
  | some s => .str s
  | none => .null

/-- Optional integer column as a JSON value (None becomes null). -/
def jvalOfOptInt : Option Int → JVal
  | some n => .num n
  | none => .null

/-- JSON object built for one asset row in the webhook payload. -/
def assetJson (aa : AssetRow) : JVal :=
  .obj [("id", .str aa.id), ("role", .str aa.role),
        ("external_url", jvalOfOptStr aa.external_url),
        ("filename", jvalOfOptStr aa.filename),
        ("mime_type", jvalOfOptStr aa.mime_type),
        ("size_bytes", jvalOfOptInt aa.size_bytes),
        ("storage_provider", jvalOfOptStr aa.storage_provider),
        ("storage_key", jvalOfOptStr aa.storage_key)]

/-- One step of the `assets_by_role` grouping loop: append to the list at
the role key, or add a fresh key at the end (CPython dict order). -/
def addAssetToRole (acc : List (String × List JVal)) (role : String) (v : JVal) :
    List (String × List JVal) :=
  if acc.any (fun p => p.1 == role) then
    acc.map (fun p => if p.1 == role then (p.1, p.2 ++ [v]) else p)
  else acc ++ [(role, [v])]

/-- The `assets_by_role` dict of the webhook payload. -/
def groupAssetsByRole (assets : List AssetRow) : List (String × JVal) :=
  (assets.foldl (fun acc aa => addAssetToRole acc aa.role (assetJson aa)) []).map
    (fun p => (p.1, JVal.arr p.2))

/-- Entries of the approval's `data` payload when it is a dict; `data or
\x7b\x7d` plus the isinstance-dict guard collapse anything else to the
empty dict. -/
def baseDataDict (row : Approval) : List (String × JVal) :=
  match row.data with
  | some (.obj kvs) => kvs
  | _ => []

/-- Payload before asset augmentation: the approval's `data` dict with
`_approval_id`, `_approval_type` and `_approval_title` written on top. -/
def basePayloadOf (row : Approval) (approval_id : String) : List (String × JVal) :=
  dictSet (dictSet (dictSet (baseDataDict row) "_approval_id" (.str approval_id))
      "_approval_type" (.str row.typ))
    "_approval_title" (.str row.title)

/-- The JSON body POSTed to the webhook.  `assetFetchFails` models an
exception inside the inner asset-gathering try block, whose handler keeps
the unaugmented payload and proceeds. -/
def buildWebhookPayload (db : DB) (row : Approval) (approval_id : String)
    (assetFetchFails : Bool) : JVal :=
  let p := basePayloadOf row approval_id
  if assetFetchFails then .obj p
  else
    let assets := assetsOfApproval db approval_id
    .obj (dictSet (dictSet p "_assets" (.arr (assets.map assetJson)))
      "_assets_by_role" (.obj (groupAssetsByRole assets)))

/-- Environment of one approve call: the clock, whether asset gathering
raises, and what the outbound POST returns. -/
structure ApproveCtx where
  now : Nat
  assetFetchFails : Bool
  net : WebhookOutcome
deriving Repr

/-- Result of one approve call: the HTTP-level result, the committed
database, the ghost trace of status writes, and the POST that was
dispatched, if any, with its payload. -/
structure ApproveOutcome where
  result : Except ApiError ApprovalActionResponse
  db : DB
  statusWrites : List StatusWrite
  dispatched : Option (String × JVal)
deriving Repr

/-- The `POST /approvals/\x7bid\x7d/approve` handler. -/
def approve_approval (db : DB) (user : Authed) (approval_id : String) (ctx : ApproveCtx) :
    ApproveOutcome :=
  match db.approvals.find? (fun a => a.id == approval_id && a.org_id == user.org_id) with
  | none => ⟨.error (.notFound "Approval not found"), db, [], none⟩
  | some row =>
    if row.status ≠ "pending" then
      ⟨.error (.invalidState ("Cannot approve: approval is already \x27" ++ row.status ++ "\x27")),
       db, [], none⟩
    else
      let step2 := execUpdateStatus db approval_id "approved" (some (user.user_id, ctx.now))
      let db2 := log_approval_event step2.1 approval_id "approved" (some user.user_id) []
      match resolveWebhookUrl db.orgs row with
      | none =>
        ⟨.ok { ok := true, message := "Approval approved", approval_id := approval_id,
               status := "approved" }, db2, step2.2, none⟩
      | some url =>
        let payload := buildWebhookPayload db row approval_id ctx.assetFetchFails
        match ctx.net with
        | .response code =>
          if code = 200 then
            let step5 := execUpdateStatus db2 approval_id "sent" none
            let db3 := log_approval_event step5.1 approval_id "sent" (some user.user_id)
              [("webhook_status", .num code)]
            ⟨.ok { ok := true, message := "Approval sent", approval_id := approval_id,
                   status := "sent" }, db3, step2.2 ++ step5.2, some (url, payload)⟩
          else
            let msg := "Webhook returned status " ++ toString code
            let step5 := execUpdateStatus db2 approval_id "failed" none
            let db3 := log_approval_event step5.1 approval_id "failed" (some user.user_id)
              [("error", .str msg), ("webhook_status", .num code)]
            ⟨.ok { ok := true, message := "Approval failed: " ++ msg,
                   approval_id := approval_id, status := "failed" },
             db3, step2.2 ++ step5.2, some (url, payload)⟩
        | .netError msg =>
          let step5 := execUpdateStatus db2 approval_id "failed" none
          let db3 := log_approval_event step5.1 approval_id "failed" (some user.user_id)
            [("error", .str msg)]
          ⟨.ok { ok := true, message := "Approval failed: " ++ msg,
                 approval_id := approval_id, status := "failed" },
           db3, step2.2 ++ step5.2, some (url, payload)⟩

/-- Result of one reject call. -/
structure RejectOutcome where
  result : Except ApiError ApprovalActionResponse
  db : DB
  statusWrites : List StatusWrite
deriving Repr

/-- The `POST /approvals/\x7bid\x7d/reject` handler: same lock and
idempotency guard, no webhook ever. -/
def reject_approval (db : DB) (user : Authed) (approval_id : String) (now : Nat) :
    RejectOutcome :=
  match db.approvals.find? (fun a => a.id == approval_id && a.org_id == user.org_id) with
  | none => ⟨.error (.notFound "Approval not found"), db, []⟩
  | some row =>
    if row.status ≠ "pending" then
      ⟨.error (.invalidState ("Cannot reject: approval is already \x27" ++ row.status ++ "\x27")),
       db, []⟩
    else
      let upd := execUpdateStatus db approval_id "rejected" (some (user.user_id, now))
      let db2 := log_approval_event upd.1 approval_id "rejected" (some user.user_id) []
      ⟨.ok { ok := true, message := "Approval rejected", approval_id := approval_id,
             status := "rejected" }, db2, upd.2⟩

/-- The `GET /approvals/\x7bid\x7d` handler reduced to what the claims
need: the org-scoped row fetch and the unconditional `viewed` event. -/
def get_approval_detail (db : DB) (user : Authed) (approval_id : String) :
    Except ApiError Approval × DB :=
  match db.approvals.find? (fun a => a.id == approval_id && a.org_id == user.org_id) with
  | none => (.error (.notFound "Approval not found"), db)
  | some row =>
    (.ok row, log_approval_event db approval_id "viewed" (some user.user_id) [])

/-! ## List operation -/

/-- FastAPI validation of `limit: int = Query(50, ge=1, le=200)`: default
50 when omitted, reject anything outside 1..200. -/
def validate_limit (given : Option Int) : Except String Nat :=
  match given with
  | none => .ok 50
  | some n =>
    if 1 ≤ n ∧ n ≤ 200 then .ok n.toNat
    else .error "Input should be between 1 and 200"

/-- Optional query filter, skipped when falsy (`if status:` semantics). -/
def matchesOptFilter (f : Option String) (field : String) : Bool :=
  if pyTruthyStr f then field == f.getD "" else true

/-- The `GET /approvals` handler: org scoping, optional status/type
filters, newest first, LIMIT. -/
def list_approvals (db : DB) (user : Authed) (status_f typ_f : Option String)
    (limit : Nat) : List Approval :=
  (sortedBy (fun x y => decide (y.created_at ≤ x.created_at))
      (db.approvals.filter (fun a =>
        a.org_id == user.org_id && matchesOptFilter status_f a.status &&
          matchesOptFilter typ_f a.typ))).take limit

/-! ## Error page renderer (`render_error_html`) -/

/-- Localized title/message/action-list for one classifier outcome. -/
structure ErrorInfo where
  title : String
  message : String
  actions : List String
deriving Repr

/-- The `messages` table of `render_error_html` (Dutch copy, verbatim).
The source looks the kind up with a fallback to the UNKNOWN entry; the
lookup is total, so the match is exact. -/
def errorMessages : UpstreamErrorKind → ErrorInfo
  | .EXPIRED =>
    { title := "Bijlage-link verlopen",
      message := "De link naar deze bijlage is verlopen.",
      actions := ["Vernieuw de pagina of open de approval opnieuw",
                  "Als dit probleem blijft optreden, neem dan contact op met support"] }
  | .FORBIDDEN =>
    { title := "Geen toegang",
      message := "Je hebt geen toegang tot deze bijlage.",
      actions := ["Controleer of je de juiste rechten hebt",
                  "Neem contact op met de eigenaar van deze approval"] }
  | .NOT_FOUND =>
    { title := "Bijlage niet gevonden",
      message := "Deze bijlage is niet gevonden. Het bestand is mogelijk verwijderd.",
      actions := ["Controleer of de bijlage nog beschikbaar is",
                  "Neem contact op met de afzender"] }
  | .UNAVAILABLE =>
    { title := "Service tijdelijk niet beschikbaar",
      message := "De bijlage-service is tijdelijk niet beschikbaar.",
      actions := ["Probeer het over een paar minuten opnieuw",
                  "Als dit probleem blijft optreden, neem dan contact op met support"] }
  | .UNKNOWN =>
    { title := "Onbekende fout",
      message := "Er is een onbekende fout opgetreden bij het ophalen van de bijlage.",
      actions := ["Vernieuw de pagina en probeer het opnieuw",
                  "Neem contact op met support als dit blijft gebeuren"] }

/-- Fixed template text of the error page (piece A). -/
def htmlPartA : String :=
  "<!DOCTYPE html>\n<html lang=\"nl\">\n<head>\n    <meta charset=\"utf-8\">\n    <meta name=\"viewport" ++
  "\" content=\"width=device-width, initial-scale=1.0\">\n    <title>"

/-- Fixed template text of the error page (piece B). -/
def htmlPartB : String :=
  "</title>\n    <style>\n        body \x7b\n            font-family: -apple-system, BlinkMacSystemFont" ++
  ", \"Segoe UI\", Roboto, \"Helvetica Neue\", Arial, sans-serif;\n            margin: 0;\n            " ++
  "padding: 20px;\n            background-color: #f8f9fa;\n            color: #333;\n            line-h" ++
  "eight: 1.6;\n        \x7d\n        .container \x7b\n            max-width: 600px;\n            margi" ++
  "n: 40px auto;\n            background: white;\n            border-radius: 8px;\n            padding:" ++
  " 30px;\n            box-shadow: 0 2px 4px rgba(0,0,0,0.1);\n        \x7d\n        h1 \x7b\n         " ++
  "   color: #d9534f;\n            font-size: 24px;\n            margin-top: 0;\n            margin-bot" ++
  "tom: 15px;\n        \x7d\n        p \x7b\n            margin: 10px 0;\n            font-size: 16px;\n" ++
  "        \x7d\n        .actions \x7b\n            background-color: #f0f8ff;\n            border-left" ++
  ": 4px solid #5bc0de;\n            padding: 15px 20px;\n            margin: 20px 0;\n            bord" ++
  "er-radius: 4px;\n        \x7d\n        .actions h2 \x7b\n            margin-top: 0;\n            fon" ++
  "t-size: 18px;\n            color: #31708f;\n        \x7d\n        .actions ul \x7b\n            marg" ++
  "in: 10px 0;\n            padding-left: 20px;\n        \x7d\n        .actions li \x7b\n            ma" ++
  "rgin: 8px 0;\n        \x7d\n        .metadata \x7b\n            margin-top: 30px;\n            paddi" ++
  "ng-top: 20px;\n            border-top: 1px solid #e0e0e0;\n            font-size: 13px;\n           " ++
  " color: #666;\n        \x7d\n        .metadata-item \x7b\n            margin: 5px 0;\n            fo" ++
  "nt-family: \"Courier New\", monospace;\n        \x7d\n        .metadata-label \x7b\n            font" ++
  "-weight: bold;\n            display: inline-block;\n            width: 120px;\n        \x7d\n    </s" ++
  "tyle>\n</head>\n<body>\n    <div class=\"container\">\n        <h1>"

/-- Fixed template text of the error page (piece C). -/
def htmlPartC : String :=
  "</h1>\n        <p>"

/-- Fixed template text of the error page (piece D). -/
def htmlPartD : String :=
  "</p>\n        \n        <div class=\"actions\">\n            <h2>Wat kun je doen?</h2>\n            " ++
  "<ul>\n                "

/-- Fixed template text of the error page (piece E). -/
def htmlPartE : String :=
  "\n            </ul>\n        </div>\n        \n        <div class=\"metadata\">\n            <div cl" ++
  "ass=\"metadata-item\">\n                <span class=\"metadata-label\">Request ID:</span>\n         " ++
  "       <span>"

/-- Fixed template text of the error page (piece F). -/
def htmlPartF : String :=
  "</span>\n            </div>\n            <div class=\"metadata-item\">\n                <span class=" ++
  "\"metadata-label\">Approval ID:</span>\n                <span>"

/-- Fixed template text of the error page (piece G). -/
def htmlPartG : String :=
  "</span>\n            </div>\n            <div class=\"metadata-item\">\n                <span class=" ++
  "\"metadata-label\">Asset ID:</span>\n                <span>"

/-- Fixed template text of the error page (piece H). -/
def htmlPartH : String :=
  "</span>\n            </div>\n            <div class=\"metadata-item\">\n                <span class=" ++
  "\"metadata-label\">Timestamp:</span>\n                <span>"

/-- Fixed template text of the error page (piece I). -/
def htmlPartI : String :=
  "</span>\n            </div>\n        </div>\n    </div>\n</body>\n</html>"


/-- Renders the action items as list elements joined by newlines. -/
def actionsHtmlOf (info : ErrorInfo) : String :=
  String.intercalate "\n" (info.actions.map (fun action => "<li>" ++ action ++ "</li>"))

/-- Everything of the rendered page that precedes the first identifier:
fixed template text plus the kind-determined title, message and actions. -/
def renderFixedPrefix (kind : UpstreamErrorKind) : String :=
  let info := errorMessages kind
  htmlPartA ++ info.title ++ htmlPartB ++ info.title ++ htmlPartC ++ info.message ++
    htmlPartD ++ actionsHtmlOf info ++ htmlPartE

/-- The error page HTML.  The source stamps `datetime.utcnow()` formatted
as a string; that clock read is the explicit `timestamp` argument here. -/
def render_error_html (kind : UpstreamErrorKind) (approval_id asset_id request_id : String)
    (timestamp : String) : String :=
  renderFixedPrefix kind ++ request_id ++ htmlPartF ++ approval_id ++ htmlPartG ++
    asset_id ++ htmlPartH ++ timestamp ++ htmlPartI

/-- Boolean substring test on character lists. -/
def listContainsSub (needle : List Char) : List Char → Bool
  | [] => needle.isEmpty
  | d :: ds => listIsPrefixOf needle (d :: ds) || listContainsSub needle ds

/-- Boolean substring test on strings. -/
def containsSub (needle hay : String) : Bool := listContainsSub needle.data hay.data

/-- Template-piece safety check: free of scripting and of references to
external resources (no script tag or handler could survive without the
substring `script`, and no external reference without `http`, `src=` or
`href`). -/
def cleanPiece (p : String) : Bool :=
  !containsSub "script" p && !containsSub "http" p && !containsSub "src=" p &&
    !containsSub "href" p

/-! ## Asset proxy (`view_approval_asset`) -/

/-- What the upstream GET of the external URL returned. -/
structure UpstreamResponse where
  status_code : Nat
  bodyText : String
  content_type : Option String
  content : String
deriving Repr

/-- Outcome of the upstream fetch: the two httpx transport failure
classes, any other exception, or a completed response. -/
inductive FetchOutcome where
  | timeout
  | transportError
  | otherError
  | ok (r : UpstreamResponse)
deriving Repr

/-- Environment of one asset-view call: the generated correlation id, the
formatted clock value the renderer stamps, the fetch outcome, and whether
reading the upstream body raises. -/
structure ViewCtx where
  request_id : String
  nowStr : String
  fetch : FetchOutcome
  bodyReadFails : Bool
deriving Repr

/-- A response the handler returns directly (HTMLResponse or Response). -/
structure PyResponse where
  status_code : Nat
  body : String
  media_type : Option String
  headers : List (String × String)
deriving Repr

/-- HTMLResponse carrying a rendered error page, with the no-store and
correlation headers the handler always attaches. -/
def htmlErrorResponse (kind : UpstreamErrorKind) (approval_id asset_id : String)
    (ctx : ViewCtx) (code : Nat) : PyResponse :=
  { status_code := code,
    body := render_error_html kind approval_id asset_id ctx.request_id ctx.nowStr,
    media_type := some "text/html; charset=utf-8",
    headers := [("Cache-Control", "no-store"), ("X-Request-Id", ctx.request_id)] }

/-- The `status_map` of the handler (defined on every kind, so the
`.get(…, 500)` default is never reached). -/
def statusMapOf : UpstreamErrorKind → Nat
  | .EXPIRED => 403
  | .FORBIDDEN => 403
  | .NOT_FOUND => 404
  | .UNAVAILABLE => 503
  | .UNKNOWN => 500

/-- The `GET /approvals/\x7bid\x7d/assets/\x7basset_id\x7d/view` handler.
The asset row is resolved by the join asset→approval with the org check;
then the external URL is fetched and the result streamed or turned into a
rendered error page. -/
def view_approval_asset (db : DB) (user : Authed) (approval_id asset_id : String)
    (ctx : ViewCtx) : Except ApiError PyResponse :=
  match db.assets.find? (fun aa =>
      aa.id == asset_id && aa.approval_id == approval_id &&
        db.approvals.any (fun a => a.id == aa.approval_id && a.org_id == user.org_id)) with
  | none => .error (.notFound "Asset not found")
  | some aa =>
    if !pyTruthyStr aa.external_url then .error (.notFound "Asset URL missing")
    else
      match ctx.fetch with
      | .timeout => .ok (htmlErrorResponse .UNAVAILABLE approval_id asset_id ctx 504)
      | .transportError => .ok (htmlErrorResponse .UNAVAILABLE approval_id asset_id ctx 502)
      | .otherError => .ok (htmlErrorResponse .UNKNOWN approval_id asset_id ctx 500)
      | .ok r =>
        if r.status_code ≠ 200 then
          let upstream_body : Option String :=
            if ctx.bodyReadFails then none else some (r.bodyText.take 10240)
          let kind := classify_upstream_error r.status_code upstream_body
          .ok (htmlErrorResponse kind approval_id asset_id ctx (statusMapOf kind))
        else
          let content_type :=
            if pyTruthyStr aa.mime_type then aa.mime_type.getD ""
            else if pyTruthyStr r.content_type then r.content_type.getD ""
            else "application/octet-stream"
          let filename := if pyTruthyStr aa.filename then aa.filename.getD "" else "asset"
          .ok { status_code := 200, body := r.content, media_type := some content_type,
                headers := [("Content-Disposition", "inline; filename=\"" ++ filename ++ "\""),
                            ("Cache-Control", "private, max-age=300"),
                            ("X-Request-Id", ctx.request_id)] }

/-! ## Sample data used by witness theorems -/

/-- Sample organization without a fallback webhook. -/
def sampleOrg : Org := { id := "o1", n8n_approval_webhook_url := none }

/-- Sample pending approval with its own webhook URL. -/
def sampleApproval : Approval :=
  { id := "a1", org_id := "o1", typ := "order", status := "pending", title := "T",
    data := none, n8n_execute_webhook_url := some "https://x/hook",
    created_at := 1, updated_at := 1, approved_at := none, approved_by_user_id := none }

/-- Sample already-resolved approval (status `sent`). -/
def sampleSentApproval : Approval :=
  { id := "a2", org_id := "o1", typ := "order", status := "sent", title := "T2",
    data := none, n8n_execute_webhook_url := none,
    created_at := 2, updated_at := 2, approved_at := some 2,
    approved_by_user_id := some "u1" }

/-- Sample asset attached to the pending approval. -/
def sampleAsset : AssetRow :=
  { id := "as1", approval_id := "a1", role := "attachment",
    external_url := some "https://minio/x", storage_provider := some "minio",
    storage_key := some "k1", filename := some "f.pdf",
    mime_type := some "application/pdf", size_bytes := some 10, created_at := 1 }

/-- Sample database. -/
def sampleDB : DB :=
  { approvals := [sampleApproval, sampleSentApproval], assets := [sampleAsset],
    events := [], orgs := [sampleOrg] }

/-- Sample authenticated caller in org o1. -/
def sampleUser : Authed := { user_id := "u1", org_id := "o1", role := "admin" }

/-- Sample caller from a different organization. -/
def sampleOtherOrgUser : Authed := { user_id := "u2", org_id := "o2", role := "admin" }

/-! ## Derived observations and helper lemmas -/

/-- Status of the approval identified by `(id, org)` in a database. -/
def approvalStatus (db : DB) (approval_id org_id : String) : Option String :=
  (db.approvals.find? (fun a => a.id == approval_id && a.org_id == org_id)).map
    (fun a => a.status)

/-- Modelled from the spec: the approval state machine — `pending` may
move only to `approved` or `rejected`, `approved` only to `sent` or
`failed`, and `rejected`/`sent`/`failed` admit no further transition. -/
def statusMachineStep (old new : String) : Bool :=
  (old == "pending" && (new == "approved" || new == "rejected")) ||
    (old == "approved" && (new == "sent" || new == "failed"))

theorem find?_map_of_pred_invariant {α : Type} (f : α → α) (p : α → Bool)
    (h : ∀ a, p (f a) = p a) :
    ∀ l : List α, (l.map f).find? p = (l.find? p).map f := by
  intro l
  induction l with
  | nil => rfl
  | cons a rest ih =>
    simp only [List.map_cons]
    by_cases hp : p a
    · rw [List.find?_cons_of_pos _ (by rw [h a]; exact hp), List.find?_cons_of_pos _ hp]
      rfl
    · rw [List.find?_cons_of_neg _ (by rw [h a]; simpa using hp),
        List.find?_cons_of_neg _ (by simpa using hp), ih]

theorem filter_map_of_pred_invariant {α : Type} (f : α → α) (p : α → Bool)
    (h : ∀ a, p (f a) = p a) :
    ∀ l : List α, (l.map f).filter p = (l.filter p).map f := by
  intro l
  induction l with
  | nil => rfl
  | cons a rest ih =>
    simp only [List.map_cons, List.filter_cons, h a]
    by_cases hp : p a
    · simp [hp, ih]
    · simp [hp, ih]

theorem filter_key_singleton {α : Type} (key : α → String) :
    ∀ (l : List α), (l.map key).Nodup → ∀ a ∈ l, l.filter (fun b => key b == key a) = [a] := by
  intro l
  induction l with
  | nil => intro _ a ha; cases ha
  | cons b rest ih =>
    intro hnd a ha
    rw [List.map_cons, List.nodup_cons] at hnd
    rcases List.mem_cons.mp ha with rfl | hmem
    · rw [List.filter_cons_of_pos (by simp)]
      have hnone : rest.filter (fun c => key c == key a) = [] := by
        rw [List.filter_eq_nil_iff]
        intro c hc hkc
        have hmm := List.mem_map_of_mem key hc
        rw [eq_of_beq hkc] at hmm
        exact hnd.1 hmm
      rw [hnone]
    · have hne : ¬(key b == key a) = true := by
        intro hkb
        have hmm := List.mem_map_of_mem key hmem
        rw [← eq_of_beq hkb] at hmm
        exact hnd.1 hmm
      rw [List.filter_cons_of_neg (by simpa using hne)]
      exact ih hnd.2 a hmem

theorem applyStatusUpdate_preserves_scope (approval_id new_status org_id : String)
    (fields : Option (String × Nat)) (a : Approval) :
    ((applyStatusUpdate approval_id new_status fields a).id == approval_id &&
        (applyStatusUpdate approval_id new_status fields a).org_id == org_id) =
      (a.id == approval_id && a.org_id == org_id) := by
  unfold applyStatusUpdate
  by_cases h : (a.id == approval_id) = true
  · rw [if_pos h]
    cases fields <;> simp [h]
  · rw [if_neg h]

theorem approvalStatus_after_update (db : DB) (approval_id org_id new_status : String)
    (fields : Option (String × Nat)) (row : Approval)
    (hfind : db.approvals.find? (fun a => a.id == approval_id && a.org_id == org_id) =
      some row) :
    (execUpdateStatus db approval_id new_status fields).1.approvals.find?
        (fun a => a.id == approval_id && a.org_id == org_id) =
      some (applyStatusUpdate approval_id new_status fields row) := by
  have h := find?_map_of_pred_invariant (applyStatusUpdate approval_id new_status fields)
    (fun a => a.id == approval_id && a.org_id == org_id)
    (fun a => applyStatusUpdate_preserves_scope approval_id new_status org_id fields a)
    db.approvals
  simp only [execUpdateStatus]
  rw [h, hfind]
  rfl

theorem applyStatusUpdate_status (approval_id new_status : String)
    (fields : Option (String × Nat)) (a : Approval) (h : (a.id == approval_id) = true) :
    (applyStatusUpdate approval_id new_status fields a).status = new_status := by
  unfold applyStatusUpdate
  rw [if_pos h]
  cases fields <;> rfl

theorem applyStatusUpdate_id (approval_id new_status : String)
    (fields : Option (String × Nat)) (a : Approval) :
    (applyStatusUpdate approval_id new_status fields a).id = a.id := by
  unfold applyStatusUpdate
  by_cases h : (a.id == approval_id) = true
  · rw [if_pos h]
    cases fields <;> rfl
  · rw [if_neg h]

theorem approvalStatus_log (db : DB) (aid2 ev : String) (uid : Option String)
    (md : List (String × JVal)) (approval_id org_id : String) :
    approvalStatus (log_approval_event db aid2 ev uid md) approval_id org_id =
      approvalStatus db approval_id org_id := rfl

theorem approvalStatus_exec (db : DB) (approval_id org_id new_status : String)
    (fields : Option (String × Nat)) (row : Approval)
    (hfind : db.approvals.find? (fun a => a.id == approval_id && a.org_id == org_id) =
      some row)
    (hid : (row.id == approval_id) = true) :
    approvalStatus (execUpdateStatus db approval_id new_status fields).1
      approval_id org_id = some new_status := by
  unfold approvalStatus
  rw [approvalStatus_after_update db approval_id org_id new_status fields row hfind]
  simp [applyStatusUpdate_status approval_id new_status fields row hid]

theorem dictGet_dictSet_self (kvs : List (String × JVal)) (k : String) (v : JVal) :
    dictGet (dictSet kvs k v) k = some v := by
  unfold dictSet
  by_cases h : kvs.any (fun p => p.1 == k)
  · rw [if_pos h]
    unfold dictGet
    rw [find?_map_of_pred_invariant (fun p => if p.1 == k then (p.1, v) else p)
      (fun p => p.1 == k)
      (fun p => by by_cases hp : (p.1 == k) = true <;> simp [hp]) kvs]
    obtain ⟨p0, hmem, hp0⟩ := List.any_eq_true.mp h
    cases hq0 : kvs.find? (fun p => p.1 == k) with
    | none =>
      rw [List.find?_eq_none] at hq0
      exact absurd hp0 (hq0 p0 hmem)
    | some q0 =>
      have hqk : q0.1 = k := eq_of_beq (by simpa using List.find?_some hq0)
      simp [hqk]
  · rw [if_neg h]
    unfold dictGet
    rw [List.find?_append]
    have hnone : kvs.find? (fun p => p.1 == k) = none :=
      List.find?_eq_none.mpr (fun p hp hpk => h (List.any_eq_true.mpr ⟨p, hp, hpk⟩))
    rw [hnone]
    simp

theorem dictGet_dictSet_of_ne (kvs : List (String × JVal)) (k : String) (v : JVal)
    (k2 : String) (h : k2 ≠ k) :
    dictGet (dictSet kvs k v) k2 = dictGet kvs k2 := by
  unfold dictSet
  by_cases hany : kvs.any (fun p => p.1 == k)
  · rw [if_pos hany]
    unfold dictGet
    rw [find?_map_of_pred_invariant (fun p => if p.1 == k then (p.1, v) else p)
      (fun p => p.1 == k2)
      (fun p => by by_cases hp : (p.1 == k) = true <;> simp [hp]) kvs]
    cases hf : kvs.find? (fun p => p.1 == k2) with
    | none => rfl
    | some p0 =>
      have hk2 := List.find?_some hf
      have hne : ¬ p0.1 = k := by
        intro hk
        exact h (by rw [← eq_of_beq hk2, hk])
      simp [hne]
  · rw [if_neg hany]
    unfold dictGet
    rw [List.find?_append]
    have hsing : [(k, v)].find? (fun p => p.1 == k2) = none := by
      rw [List.find?_eq_none]
      intro p hp hpk
      rw [List.mem_singleton] at hp
      subst hp
      exact h (eq_of_beq hpk).symm
    rw [hsing]
    cases hf : kvs.find? (fun p => p.1 == k2) <;> rfl

theorem writes_execUpdateStatus (db : DB) (approval_id new_status : String)
    (fields : Option (String × Nat)) (row : Approval)
    (hfilter : db.approvals.filter (fun a => a.id == approval_id) = [row]) :
    (execUpdateStatus db approval_id new_status fields).2 =
      [{ approval_id := approval_id, old := row.status, new := new_status,
         setsApprovalFields := fields.isSome }] := by
  show ((db.approvals.filter (fun a => a.id == approval_id)).map _) = _
  rw [hfilter]
  rfl

theorem filter_id_after_update (db : DB) (approval_id new_status : String)
    (fields : Option (String × Nat)) (row : Approval)
    (hfilter : db.approvals.filter (fun a => a.id == approval_id) = [row]) :
    (execUpdateStatus db approval_id new_status fields).1.approvals.filter
        (fun a => a.id == approval_id) =
      [applyStatusUpdate approval_id new_status fields row] := by
  show (db.approvals.map (applyStatusUpdate approval_id new_status fields)).filter
      (fun a => a.id == approval_id) = _
  rw [filter_map_of_pred_invariant (applyStatusUpdate approval_id new_status fields)
    (fun a => a.id == approval_id)
    (fun a => by simp [applyStatusUpdate_id]) db.approvals, hfilter]
  rfl

theorem view_ok_of_found (db : DB) (user : Authed) (approval_id asset_id : String)
    (ctx : ViewCtx) (aa : AssetRow)
    (hfind : db.assets.find? (fun aa => aa.id == asset_id &&
        aa.approval_id == approval_id &&
        db.approvals.any (fun a => a.id == aa.approval_id &&
          a.org_id == user.org_id)) = some aa)
    (hurl : pyTruthyStr aa.external_url = true) :
    ∃ resp, view_approval_asset db user approval_id asset_id ctx = .ok resp := by
  simp only [view_approval_asset, hfind, hurl, Bool.not_true]
  rw [if_neg (by simp)]
  cases hfetch : ctx.fetch with
  | timeout => exact ⟨_, rfl⟩
  | transportError => exact ⟨_, rfl⟩
  | otherError => exact ⟨_, rfl⟩
  | ok r =>
    dsimp only
    by_cases hs : r.status_code ≠ 200
    · rw [if_pos hs]
      exact ⟨_, rfl⟩
    · rw [if_neg hs]
      exact ⟨_, rfl⟩

/-! ## Claim theorems -/

/-- C4: for every HTTP status code and optional body, the upstream error
classifier first attempts code extraction and, when a code is extracted,
classifies by exact code with the code taking precedence over the status
(ExpiredToken/RequestExpired/TokenRefreshRequired → EXPIRED; NoSuchKey →
NOT_FOUND even with status 403; AccessDenied/InvalidAccessKeyId/
SignatureDoesNotMatch → FORBIDDEN); otherwise it classifies by status
alone: 404→NOT_FOUND, 403→FORBIDDEN, any other 4xx→FORBIDDEN, any
5xx→UNAVAILABLE, anything else→UNKNOWN. -/
theorem classifier_code_precedence_and_status_fallback :
    ∀ (status_code : Nat) (body : Option String),
      (∀ c, errorCodeOf body = some c →
        ((c = "ExpiredToken" ∨ c = "RequestExpired" ∨ c = "TokenRefreshRequired") →
            classify_upstream_error status_code body = .EXPIRED) ∧
        (c = "NoSuchKey" → classify_upstream_error status_code body = .NOT_FOUND) ∧
        ((c = "AccessDenied" ∨ c = "InvalidAccessKeyId" ∨ c = "SignatureDoesNotMatch") →
            classify_upstream_error status_code body = .FORBIDDEN)) ∧
      (errorCodeOf body = none →
        (status_code = 404 → classify_upstream_error status_code body = .NOT_FOUND) ∧
        (400 ≤ status_code → status_code < 500 → status_code ≠ 404 →
            classify_upstream_error status_code body = .FORBIDDEN) ∧
        (500 ≤ status_code → status_code < 600 →
            classify_upstream_error status_code body = .UNAVAILABLE) ∧
        ((status_code < 400 ∨ 600 ≤ status_code) →
            classify_upstream_error status_code body = .UNKNOWN)) := by
  intro s b
  constructor
  · intro c hc
    refine ⟨fun h1 => ?_, fun h2 => ?_, fun h3 => ?_⟩
    · simp only [classify_upstream_error, hc]
      rw [if_pos h1]
    · subst h2
      simp [classify_upstream_error, hc]
    · rcases h3 with rfl | rfl | rfl <;> simp [classify_upstream_error, hc]
  · intro hc
    simp only [classify_upstream_error, hc]
    refine ⟨fun h404 => ?_, fun hlo hhi hne => ?_, fun hlo hhi => ?_, fun hout => ?_⟩
    · rw [if_pos h404]
    · by_cases h403 : s = 403
      · rw [if_neg hne, if_pos h403]
      · rw [if_neg hne, if_neg h403, if_pos ⟨hlo, hhi⟩]
    · rw [if_neg (by omega), if_neg (by omega), if_neg (by omega), if_pos ⟨hlo, hhi⟩]
    · rw [if_neg (by omega), if_neg (by omega), if_neg (by omega), if_neg (by omega)]

/-- C4 witness: the classifier facts applied at the concrete inputs the
spec quotes: `<Error><Code>NoSuchKey</Code></Error>` with status 403 is
NOT_FOUND, and a body-less 500 is UNAVAILABLE. -/
theorem classifier_code_precedence_and_status_fallback_witness :
    classify_upstream_error 403 (some "<Error><Code>NoSuchKey</Code></Error>") =
        UpstreamErrorKind.NOT_FOUND ∧
      classify_upstream_error 500 none = UpstreamErrorKind.UNAVAILABLE := by
  have h1 := classifier_code_precedence_and_status_fallback 403
    (some "<Error><Code>NoSuchKey</Code></Error>")
  have h2 := classifier_code_precedence_and_status_fallback 500 none
  exact ⟨((h1.1 "NoSuchKey" (by decide)).2.1) rfl,
         (h2.2 rfl).2.2.1 (by omega) (by omega)⟩

set_option maxRecDepth 100000 in
set_option maxHeartbeats 2000000 in
/-- C9: the error page renderer is deterministic in (kind, approval_id,
asset_id, request_id) plus the clock stamp: for each classifier outcome
the output is a fixed template — title, message and action list depend
only on the kind — into which exactly the three identifiers and the
timestamp are interpolated, and every fixed template piece is free of
scripting (`script`) and of external resource references (`http`,
`src=`, `href`). -/
theorem render_error_html_template_safety :
    ∀ kind : UpstreamErrorKind, ∃ c0 c1 c2 c3 c4 : String,
      (∀ approval_id asset_id request_id timestamp,
        render_error_html kind approval_id asset_id request_id timestamp =
          c0 ++ request_id ++ c1 ++ approval_id ++ c2 ++ asset_id ++ c3 ++
            timestamp ++ c4) ∧
      (cleanPiece c0 && cleanPiece c1 && cleanPiece c2 && cleanPiece c3 &&
        cleanPiece c4) = true := by
  intro kind
  refine ⟨renderFixedPrefix kind, htmlPartF, htmlPartG, htmlPartH, htmlPartI,
    fun _ _ _ _ => rfl, ?_⟩
  cases kind <;> decide

/-- C10: the list operation's `limit` parameter is validated to 1..200
inclusive (out-of-range requests are rejected with a validation error) and
defaults to 50 when omitted, so every list response contains at most 200
rows. -/
theorem list_limit_validated_bounded :
    ∀ (given : Option Int),
      (given = none → validate_limit given = .ok 50) ∧
      (∀ n m, given = some n → validate_limit given = .ok m →
        1 ≤ n ∧ n ≤ 200 ∧ m = n.toNat) ∧
      (∀ n, given = some n → (n < 1 ∨ 200 < n) → ∃ e, validate_limit given = .error e) ∧
      (∀ (db : DB) (user : Authed) (status_f typ_f : Option String) (m : Nat),
        validate_limit given = .ok m →
        (list_approvals db user status_f typ_f m).length ≤ 200) := by
  intro given
  have hbound : ∀ m : Nat, validate_limit given = .ok m → m ≤ 200 := by
    intro m h
    cases given with
    | none =>
      simp only [validate_limit] at h
      cases h
      omega
    | some n =>
      simp only [validate_limit] at h
      split at h
      · cases h
        rename_i hcond
        omega
      · cases h
  refine ⟨fun h => by subst h; rfl, fun n m hg h => ?_, fun n hg hout => ?_,
          fun db user status_f typ_f m h => ?_⟩
  · subst hg
    simp only [validate_limit] at h
    split at h
    · rename_i hcond
      cases h
      exact ⟨hcond.1, hcond.2, rfl⟩
    · cases h
  · subst hg
    refine ⟨"Input should be between 1 and 200", ?_⟩
    simp only [validate_limit]
    rw [if_neg (by omega)]
  · have hm := hbound m h
    calc (list_approvals db user status_f typ_f m).length
        ≤ m := by
          simp only [list_approvals]
          exact (List.length_take ..).trans_le (Nat.min_le_left _ _)
      _ ≤ 200 := hm

/-- C10 witness: the default and the bound applied at concrete inputs. -/
theorem list_limit_validated_bounded_witness :
    validate_limit none = .ok 50 ∧
      (list_approvals sampleDB sampleUser none none 50).length ≤ 200 := by
  have h := list_limit_validated_bounded none
  exact ⟨h.1 rfl, h.2.2.2 sampleDB sampleUser none none 50 (h.1 rfl)⟩

/-- C7: the approve operation's HTTP-level response has `ok` true in every
non-error outcome, and whenever the pending guard passes the call returns
an ok envelope whatever the webhook outcome was — a failed webhook is
reported only through the returned `status` field, never as an HTTP error
response. -/
theorem approve_envelope_always_ok :
    ∀ (db : DB) (user : Authed) (approval_id : String) (ctx : ApproveCtx),
      (∀ resp, (approve_approval db user approval_id ctx).result = .ok resp →
        resp.ok = true) ∧
      (∀ row,
        db.approvals.find? (fun a => a.id == approval_id && a.org_id == user.org_id) =
          some row →
        row.status = "pending" →
        ∃ resp, (approve_approval db user approval_id ctx).result = .ok resp ∧
          resp.ok = true) := by
  intro db user approval_id ctx
  constructor
  · intro resp h
    simp only [approve_approval] at h
    split at h
    · cases h
    · split at h
      · cases h
      · split at h
        · cases h
          rfl
        · split at h
          · split at h
            · cases h
              rfl
            · cases h
              rfl
          · cases h
            rfl
  · intro row hfind hp
    simp only [approve_approval, hfind]
    rw [if_neg (by simp [hp])]
    cases hres : resolveWebhookUrl db.orgs row with
    | none => exact ⟨_, rfl, rfl⟩
    | some url =>
      cases hnet : ctx.net with
      | response code =>
        by_cases hcode : code = 200
        · subst hcode
          exact ⟨_, rfl, rfl⟩
        · dsimp only
          rw [if_neg hcode]
          exact ⟨_, rfl, rfl⟩
      | netError msg => exact ⟨_, rfl, rfl⟩

/-- C1: for every pending approval, a successful approve ends in exactly
one of three final states decided by webhook resolution and outcome: no
resolvable URL (approval-level preferred over org-level) leaves the
status `approved` with no HTTP call; a resolved URL whose POST returns
HTTP 200 yields `sent` plus a `sent` event carrying the upstream status
code in metadata; any other upstream status or network failure yields
`failed` plus a `failed` event carrying an error description. -/
theorem approve_webhook_trichotomy :
    ∀ (db : DB) (user : Authed) (approval_id : String) (ctx : ApproveCtx)
      (row : Approval),
      db.approvals.find? (fun a => a.id == approval_id && a.org_id == user.org_id) =
        some row →
      row.status = "pending" →
      ((pyTruthyStr row.n8n_execute_webhook_url = true →
          resolveWebhookUrl db.orgs row = row.n8n_execute_webhook_url) ∧
       (resolveWebhookUrl db.orgs row = none →
          (approve_approval db user approval_id ctx).dispatched = none ∧
          approvalStatus (approve_approval db user approval_id ctx).db approval_id
            user.org_id = some "approved" ∧
          (approve_approval db user approval_id ctx).db.events = db.events ++
            [{ approval_id := approval_id, event := "approved",
               by_user_id := some user.user_id, metadata := [] }] ∧
          (approve_approval db user approval_id ctx).result = .ok
            { ok := true, message := "Approval approved", approval_id := approval_id,
              status := "approved" }) ∧
       (∀ url, resolveWebhookUrl db.orgs row = some url →
          (ctx.net = .response 200 →
            approvalStatus (approve_approval db user approval_id ctx).db approval_id
              user.org_id = some "sent" ∧
            (approve_approval db user approval_id ctx).db.events = db.events ++
              [{ approval_id := approval_id, event := "approved",
                 by_user_id := some user.user_id, metadata := [] },
               { approval_id := approval_id, event := "sent",
                 by_user_id := some user.user_id,
                 metadata := [("webhook_status", .num 200)] }] ∧
            (approve_approval db user approval_id ctx).result = .ok
              { ok := true, message := "Approval sent", approval_id := approval_id,
                status := "sent" }) ∧
          (∀ code, ctx.net = .response code → code ≠ 200 →
            approvalStatus (approve_approval db user approval_id ctx).db approval_id
              user.org_id = some "failed" ∧
            (approve_approval db user approval_id ctx).db.events = db.events ++
              [{ approval_id := approval_id, event := "approved",
                 by_user_id := some user.user_id, metadata := [] },
               { approval_id := approval_id, event := "failed",
                 by_user_id := some user.user_id,
                 metadata := [("error",
                    .str ("Webhook returned status " ++ toString code)),
                   ("webhook_status", .num code)] }] ∧
            (approve_approval db user approval_id ctx).result = .ok
              { ok := true,
                message := "Approval failed: " ++
                  ("Webhook returned status " ++ toString code),
                approval_id := approval_id, status := "failed" }) ∧
          (∀ m, ctx.net = .netError m →
            approvalStatus (approve_approval db user approval_id ctx).db approval_id
              user.org_id = some "failed" ∧
            (approve_approval db user approval_id ctx).db.events = db.events ++
              [{ approval_id := approval_id, event := "approved",
                 by_user_id := some user.user_id, metadata := [] },
               { approval_id := approval_id, event := "failed",
                 by_user_id := some user.user_id,
                 metadata := [("error", .str m)] }] ∧
            (approve_approval db user approval_id ctx).result = .ok
              { ok := true, message := "Approval failed: " ++ m,
                approval_id := approval_id, status := "failed" }))) := by
  intro db user approval_id ctx row hfind hp
  have hb : (row.id == approval_id && row.org_id == user.org_id) = true := by
    simpa using List.find?_some hfind
  simp only [Bool.and_eq_true] at hb
  have h1 := approvalStatus_after_update db approval_id user.org_id "approved"
    (some (user.user_id, ctx.now)) row hfind
  have hfind2 : (log_approval_event
      (execUpdateStatus db approval_id "approved" (some (user.user_id, ctx.now))).1
      approval_id "approved" (some user.user_id) []).approvals.find?
        (fun a => a.id == approval_id && a.org_id == user.org_id) =
      some (applyStatusUpdate approval_id "approved" (some (user.user_id, ctx.now)) row) :=
    h1
  have hid2 : ((applyStatusUpdate approval_id "approved"
      (some (user.user_id, ctx.now)) row).id == approval_id) = true := by
    rw [applyStatusUpdate_id]
    exact hb.1
  refine ⟨?_, ?_, ?_⟩
  · intro htruthy
    simp [resolveWebhookUrl, htruthy]
  · intro hres
    simp only [approve_approval, hfind]
    rw [if_neg (by simp [hp]), hres]
    dsimp only
    refine ⟨rfl, ?_, ?_, rfl⟩
    · rw [approvalStatus_log]
      exact approvalStatus_exec db approval_id user.org_id "approved"
        (some (user.user_id, ctx.now)) row hfind hb.1
    · simp [log_approval_event, execUpdateStatus]
  · intro url hres
    refine ⟨?_, ?_, ?_⟩
    · intro hnet
      simp only [approve_approval, hfind]
      rw [if_neg (by simp [hp]), hres, hnet]
      dsimp only
      rw [if_pos rfl]
      dsimp only
      refine ⟨?_, ?_, rfl⟩
      · rw [approvalStatus_log]
        exact approvalStatus_exec _ approval_id user.org_id "sent" none _ hfind2 hid2
      · simp [log_approval_event, execUpdateStatus]
    · intro code hnet hne
      simp only [approve_approval, hfind]
      rw [if_neg (by simp [hp]), hres, hnet]
      dsimp only
      rw [if_neg hne]
      dsimp only
      refine ⟨?_, ?_, rfl⟩
      · rw [approvalStatus_log]
        exact approvalStatus_exec _ approval_id user.org_id "failed" none _ hfind2 hid2
      · simp [log_approval_event, execUpdateStatus]
    · intro m hnet
      simp only [approve_approval, hfind]
      rw [if_neg (by simp [hp]), hres, hnet]
      dsimp only
      refine ⟨?_, ?_, rfl⟩
      · rw [approvalStatus_log]
        exact approvalStatus_exec _ approval_id user.org_id "failed" none _ hfind2 hid2
      · simp [log_approval_event, execUpdateStatus]

/-- C1 witness: the sample pending approval with its own webhook URL,
whose POST returns 200, finishes `sent` with the `[approved, sent]`
events appended. -/
theorem approve_webhook_trichotomy_witness :
    approvalStatus (approve_approval sampleDB sampleUser "a1"
        { now := 5, assetFetchFails := false, net := .response 200 }).db "a1" "o1" =
      some "sent" ∧
    (approve_approval sampleDB sampleUser "a1"
        { now := 5, assetFetchFails := false, net := .response 200 }).db.events =
      sampleDB.events ++
        [{ approval_id := "a1", event := "approved", by_user_id := some "u1",
           metadata := [] },
         { approval_id := "a1", event := "sent", by_user_id := some "u1",
           metadata := [("webhook_status", .num 200)] }] := by
  have h := (((approve_webhook_trichotomy sampleDB sampleUser "a1"
    { now := 5, assetFetchFails := false, net := .response 200 }
    sampleApproval rfl rfl).2.2) "https://x/hook" rfl).1 rfl
  exact ⟨h.1, h.2.1⟩

/-- C8: for every approve that resolves a webhook URL, the dispatched
payload is the approval's opaque `data` dict augmented with the approval
id, type and title, plus — when asset gathering succeeds — the full asset
list (each entry with external_url, storage_provider/key, filename,
mime_type, size_bytes) both flat and grouped by role; a failure while
gathering assets never aborts the approve path: the metadata-augmented
payload is dispatched without asset augmentation. -/
theorem approve_payload_shape :
    ∀ (db : DB) (user : Authed) (approval_id : String) (ctx : ApproveCtx)
      (row : Approval) (url : String),
      db.approvals.find? (fun a => a.id == approval_id && a.org_id == user.org_id) =
        some row →
      row.status = "pending" →
      resolveWebhookUrl db.orgs row = some url →
      ∃ kvs, (approve_approval db user approval_id ctx).dispatched =
          some (url, .obj kvs) ∧
        (∃ resp, (approve_approval db user approval_id ctx).result = .ok resp) ∧
        dictGet kvs "_approval_id" = some (.str approval_id) ∧
        dictGet kvs "_approval_type" = some (.str row.typ) ∧
        dictGet kvs "_approval_title" = some (.str row.title) ∧
        (ctx.assetFetchFails = false →
          dictGet kvs "_assets" =
            some (.arr ((assetsOfApproval db approval_id).map assetJson)) ∧
          dictGet kvs "_assets_by_role" =
            some (.obj (groupAssetsByRole (assetsOfApproval db approval_id)))) ∧
        (ctx.assetFetchFails = true → kvs = basePayloadOf row approval_id) ∧
        (∀ k, k ≠ "_approval_id" → k ≠ "_approval_type" → k ≠ "_approval_title" →
          k ≠ "_assets" → k ≠ "_assets_by_role" →
          dictGet kvs k = dictGet (baseDataDict row) k) := by
  intro db user approval_id ctx row url hfind hp hres
  have hdisp : (approve_approval db user approval_id ctx).dispatched =
      some (url, buildWebhookPayload db row approval_id ctx.assetFetchFails) := by
    simp only [approve_approval, hfind]
    rw [if_neg (by simp [hp]), hres]
    cases hnet : ctx.net with
    | response code =>
      dsimp only
      by_cases hc : code = 200
      · subst hc
        rfl
      · rw [if_neg hc]
    | netError m => rfl
  have hok : ∃ resp, (approve_approval db user approval_id ctx).result = .ok resp := by
    simp only [approve_approval, hfind]
    rw [if_neg (by simp [hp]), hres]
    cases hnet : ctx.net with
    | response code =>
      dsimp only
      by_cases hc : code = 200
      · subst hc
        exact ⟨_, rfl⟩
      · rw [if_neg hc]
        exact ⟨_, rfl⟩
    | netError m => exact ⟨_, rfl⟩
  have hAid : dictGet (basePayloadOf row approval_id) "_approval_id" =
      some (.str approval_id) := by
    unfold basePayloadOf
    rw [dictGet_dictSet_of_ne _ _ _ _ (by decide), dictGet_dictSet_of_ne _ _ _ _ (by decide),
      dictGet_dictSet_self]
  have hTyp : dictGet (basePayloadOf row approval_id) "_approval_type" =
      some (.str row.typ) := by
    unfold basePayloadOf
    rw [dictGet_dictSet_of_ne _ _ _ _ (by decide), dictGet_dictSet_self]
  have hTitle : dictGet (basePayloadOf row approval_id) "_approval_title" =
      some (.str row.title) := by
    unfold basePayloadOf
    rw [dictGet_dictSet_self]
  have hBase : ∀ k, k ≠ "_approval_id" → k ≠ "_approval_type" → k ≠ "_approval_title" →
      dictGet (basePayloadOf row approval_id) k = dictGet (baseDataDict row) k := by
    intro k h1 h2 h3
    unfold basePayloadOf
    rw [dictGet_dictSet_of_ne _ _ _ _ h3, dictGet_dictSet_of_ne _ _ _ _ h2,
      dictGet_dictSet_of_ne _ _ _ _ h1]
  cases hf : ctx.assetFetchFails with
  | true =>
    refine ⟨basePayloadOf row approval_id, ?_, hok, hAid, hTyp, hTitle,
      fun h => absurd h (by decide), fun _ => rfl, ?_⟩
    · rw [hdisp, hf]
      rfl
    · intro k h1 h2 h3 _ _
      exact hBase k h1 h2 h3
  | false =>
    refine ⟨dictSet (dictSet (basePayloadOf row approval_id) "_assets"
        (.arr ((assetsOfApproval db approval_id).map assetJson)))
        "_assets_by_role" (.obj (groupAssetsByRole (assetsOfApproval db approval_id))),
      ?_, hok, ?_, ?_, ?_, fun _ => ⟨?_, ?_⟩,
      fun h => absurd h (by decide), ?_⟩
    · rw [hdisp, hf]
      rfl
    · rw [dictGet_dictSet_of_ne _ _ _ _ (by decide),
        dictGet_dictSet_of_ne _ _ _ _ (by decide)]
      exact hAid
    · rw [dictGet_dictSet_of_ne _ _ _ _ (by decide),
        dictGet_dictSet_of_ne _ _ _ _ (by decide)]
      exact hTyp
    · rw [dictGet_dictSet_of_ne _ _ _ _ (by decide),
        dictGet_dictSet_of_ne _ _ _ _ (by decide)]
      exact hTitle
    · rw [dictGet_dictSet_of_ne _ _ _ _ (by decide), dictGet_dictSet_self]
    · rw [dictGet_dictSet_self]
    · intro k h1 h2 h3 h4 h5
      rw [dictGet_dictSet_of_ne _ _ _ _ h5, dictGet_dictSet_of_ne _ _ _ _ h4]
      exact hBase k h1 h2 h3

/-- C8 witness: the sample approve dispatches a payload whose `_assets`
key holds the one sample asset. -/
theorem approve_payload_shape_witness :
    ∃ kvs, (approve_approval sampleDB sampleUser "a1"
        { now := 5, assetFetchFails := false, net := .response 200 }).dispatched =
      some ("https://x/hook", .obj kvs) := by
  obtain ⟨kvs, hd, _⟩ := approve_payload_shape sampleDB sampleUser "a1"
    { now := 5, assetFetchFails := false, net := .response 200 }
    sampleApproval "https://x/hook" rfl rfl rfl
  exact ⟨kvs, hd⟩

/-- C2: assuming unique approval ids (the primary key), every write of an
approval's `status` column performed by the approve and reject operations
follows the state machine (`pending` → `approved`/`rejected`, `approved`
→ `sent`/`failed`, nothing else), `approved_by_user_id`/`approved_at`
are written exactly by the one write that leaves `pending` (at most once
per call), and the read operation mutates no approval row. -/
theorem status_writes_follow_state_machine :
    ∀ (db : DB) (user : Authed) (approval_id : String) (ctx : ApproveCtx) (now : Nat),
      (db.approvals.map (fun a => a.id)).Nodup →
      ((∀ w ∈ (approve_approval db user approval_id ctx).statusWrites,
          statusMachineStep w.old w.new = true ∧
          w.setsApprovalFields = (w.old == "pending")) ∧
       ((approve_approval db user approval_id ctx).statusWrites.filter
          (fun w => w.setsApprovalFields)).length ≤ 1 ∧
       (∀ w ∈ (reject_approval db user approval_id now).statusWrites,
          statusMachineStep w.old w.new = true ∧
          w.setsApprovalFields = (w.old == "pending")) ∧
       ((reject_approval db user approval_id now).statusWrites.filter
          (fun w => w.setsApprovalFields)).length ≤ 1 ∧
       (get_approval_detail db user approval_id).2.approvals = db.approvals) := by
  intro db user approval_id ctx now hnd
  cases hfind : db.approvals.find?
      (fun a => a.id == approval_id && a.org_id == user.org_id) with
  | none =>
    have ha : (approve_approval db user approval_id ctx).statusWrites = [] := by
      simp only [approve_approval, hfind]
    have hr : (reject_approval db user approval_id now).statusWrites = [] := by
      simp only [reject_approval, hfind]
    have hg : (get_approval_detail db user approval_id).2.approvals = db.approvals := by
      simp only [get_approval_detail, hfind]
    exact ⟨by simp [ha], by simp [ha], by simp [hr], by simp [hr], hg⟩
  | some row =>
    have hb : (row.id == approval_id && row.org_id == user.org_id) = true := by
      simpa using List.find?_some hfind
    simp only [Bool.and_eq_true] at hb
    have hmem := List.mem_of_find?_eq_some hfind
    have hg : (get_approval_detail db user approval_id).2.approvals = db.approvals := by
      simp only [get_approval_detail, hfind]
      rfl
    by_cases hp : row.status = "pending"
    · have hfilter : db.approvals.filter (fun a => a.id == approval_id) = [row] := by
        have h0 := filter_key_singleton (fun a => a.id) db.approvals hnd row hmem
        simp only [] at h0
        rw [eq_of_beq hb.1] at h0
        exact h0
      have hw1 := writes_execUpdateStatus db approval_id "approved"
        (some (user.user_id, ctx.now)) row hfilter
      have hfilter2 : (log_approval_event
          (execUpdateStatus db approval_id "approved" (some (user.user_id, ctx.now))).1
          approval_id "approved" (some user.user_id) []).approvals.filter
            (fun a => a.id == approval_id) =
          [applyStatusUpdate approval_id "approved" (some (user.user_id, ctx.now)) row] :=
        filter_id_after_update db approval_id "approved"
          (some (user.user_id, ctx.now)) row hfilter
      have hstat1 : (applyStatusUpdate approval_id "approved"
          (some (user.user_id, ctx.now)) row).status = "approved" :=
        applyStatusUpdate_status _ _ _ _ hb.1
      have hr : (reject_approval db user approval_id now).statusWrites =
          [{ approval_id := approval_id, old := row.status, new := "rejected",
             setsApprovalFields := true }] := by
        simp only [reject_approval, hfind]
        rw [if_neg (by simp [hp])]
        dsimp only
        rw [writes_execUpdateStatus db approval_id "rejected"
          (some (user.user_id, now)) row hfilter]
        rfl
      cases hres : resolveWebhookUrl db.orgs row with
      | none =>
        have ha : (approve_approval db user approval_id ctx).statusWrites =
            [{ approval_id := approval_id, old := row.status, new := "approved",
               setsApprovalFields := true }] := by
          simp only [approve_approval, hfind]
          rw [if_neg (by simp [hp]), hres]
          dsimp only
          rw [hw1]
          rfl
        exact ⟨by simp [ha, hp, statusMachineStep], by simp [ha],
          by simp [hr, hp, statusMachineStep], by simp [hr], hg⟩
      | some url =>
        cases hnet : ctx.net with
        | response code =>
          by_cases hc : code = 200
          · subst hc
            have ha : (approve_approval db user approval_id ctx).statusWrites =
                [{ approval_id := approval_id, old := row.status, new := "approved",
                   setsApprovalFields := true },
                 { approval_id := approval_id, old := "approved", new := "sent",
                   setsApprovalFields := false }] := by
              simp only [approve_approval, hfind]
              rw [if_neg (by simp [hp]), hres, hnet]
              dsimp only
              rw [if_pos rfl]
              dsimp only
              rw [hw1, writes_execUpdateStatus _ approval_id "sent" none _ hfilter2,
                hstat1]
              rfl
            exact ⟨by simp [ha, hp, statusMachineStep], by simp [ha],
              by simp [hr, hp, statusMachineStep], by simp [hr], hg⟩
          · have ha : (approve_approval db user approval_id ctx).statusWrites =
                [{ approval_id := approval_id, old := row.status, new := "approved",
                   setsApprovalFields := true },
                 { approval_id := approval_id, old := "approved", new := "failed",
                   setsApprovalFields := false }] := by
              simp only [approve_approval, hfind]
              rw [if_neg (by simp [hp]), hres, hnet]
              dsimp only
              rw [if_neg hc]
              dsimp only
              rw [hw1, writes_execUpdateStatus _ approval_id "failed" none _ hfilter2,
                hstat1]
              rfl
            exact ⟨by simp [ha, hp, statusMachineStep], by simp [ha],
              by simp [hr, hp, statusMachineStep], by simp [hr], hg⟩
        | netError m =>
          have ha : (approve_approval db user approval_id ctx).statusWrites =
              [{ approval_id := approval_id, old := row.status, new := "approved",
                 setsApprovalFields := true },
               { approval_id := approval_id, old := "approved", new := "failed",
                 setsApprovalFields := false }] := by
            simp only [approve_approval, hfind]
            rw [if_neg (by simp [hp]), hres, hnet]
            dsimp only
            rw [hw1, writes_execUpdateStatus _ approval_id "failed" none _ hfilter2,
              hstat1]
            rfl
          exact ⟨by simp [ha, hp, statusMachineStep], by simp [ha],
            by simp [hr, hp, statusMachineStep], by simp [hr], hg⟩
    · have ha : (approve_approval db user approval_id ctx).statusWrites = [] := by
        simp only [approve_approval, hfind]
        rw [if_pos hp]
      have hr : (reject_approval db user approval_id now).statusWrites = [] := by
        simp only [reject_approval, hfind]
        rw [if_pos hp]
      exact ⟨by simp [ha], by simp [ha], by simp [hr], by simp [hr], hg⟩

/-- C2 witness: on the sample database (whose approval ids are distinct)
the approve whose webhook answers 200 stamps the approver fields in at
most one status write. -/
theorem status_writes_follow_state_machine_witness :
    ((approve_approval sampleDB sampleUser "a1"
        { now := 5, assetFetchFails := false, net := .response 200 }).statusWrites.filter
      (fun w => w.setsApprovalFields)).length ≤ 1 := by
  exact (status_writes_follow_state_machine sampleDB sampleUser "a1"
    { now := 5, assetFetchFails := false, net := .response 200 } 5 (by decide)).2.1

/-- C3: for every approval whose status is not `pending`, both approve and
reject fail with an InvalidState client error, and on that failure the
database (approval row, `updated_at`, `approved_at`, `approved_by_user_id`
and the event log) is left unchanged, no webhook call is attempted and no
event is appended; a missing `(id, org_id)` row fails with NotFound. -/
theorem nonpending_guard_rejects_without_mutation :
    ∀ (db : DB) (user : Authed) (approval_id : String) (ctx : ApproveCtx) (now : Nat),
      (db.approvals.find? (fun a => a.id == approval_id && a.org_id == user.org_id) =
          none →
        (approve_approval db user approval_id ctx).result =
            .error (.notFound "Approval not found") ∧
          (approve_approval db user approval_id ctx).db = db ∧
          (approve_approval db user approval_id ctx).dispatched = none ∧
          (reject_approval db user approval_id now).result =
            .error (.notFound "Approval not found") ∧
          (reject_approval db user approval_id now).db = db) ∧
      (∀ row,
        db.approvals.find? (fun a => a.id == approval_id && a.org_id == user.org_id) =
          some row →
        row.status ≠ "pending" →
        (approve_approval db user approval_id ctx).result =
            .error (.invalidState
              ("Cannot approve: approval is already \x27" ++ row.status ++ "\x27")) ∧
          (approve_approval db user approval_id ctx).db = db ∧
          (approve_approval db user approval_id ctx).dispatched = none ∧
          (reject_approval db user approval_id now).result =
            .error (.invalidState
              ("Cannot reject: approval is already \x27" ++ row.status ++ "\x27")) ∧
          (reject_approval db user approval_id now).db = db) := by
  intro db user approval_id ctx now
  constructor
  · intro hfind
    refine ⟨?_, ?_, ?_, ?_, ?_⟩ <;>
      simp only [approve_approval, reject_approval, hfind]
  · intro row hfind hne
    refine ⟨?_, ?_, ?_, ?_, ?_⟩ <;>
      · simp only [approve_approval, reject_approval, hfind]
        rw [if_pos hne]

/-- C3 witness: approving or rejecting the already-`sent` sample approval
fails InvalidState and changes nothing; an unknown id fails NotFound. -/
theorem nonpending_guard_rejects_without_mutation_witness :
    (approve_approval sampleDB sampleUser "a2"
        { now := 9, assetFetchFails := false, net := .response 200 }).result =
      .error (.invalidState "Cannot approve: approval is already \x27sent\x27") ∧
      (approve_approval sampleDB sampleUser "a2"
        { now := 9, assetFetchFails := false, net := .response 200 }).db = sampleDB ∧
      (reject_approval sampleDB sampleUser "nope" 9).result =
        .error (.notFound "Approval not found") := by
  have h2 := (nonpending_guard_rejects_without_mutation sampleDB sampleUser "a2"
    { now := 9, assetFetchFails := false, net := .response 200 } 9).2
    sampleSentApproval rfl (by decide)
  have h1 := (nonpending_guard_rejects_without_mutation sampleDB sampleUser "nope"
    { now := 9, assetFetchFails := false, net := .response 200 } 9).1 rfl
  exact ⟨h2.1, h2.2.1, h1.2.2.2.1⟩

/-- C5: the asset-view operation fails with NotFound precisely when no
asset row matches the requested id, the requested approval, and the
caller's organization (via the asset→approval join), or the matching
asset has no stored (truthy) `external_url`; in particular every
cross-tenant request is rejected. -/
theorem asset_view_notfound_iff :
    ∀ (db : DB) (user : Authed) (approval_id asset_id : String) (ctx : ViewCtx),
      ((db.assets.map (fun aa => aa.id)).Nodup →
        ((∃ msg, view_approval_asset db user approval_id asset_id ctx =
            .error (.notFound msg)) ↔
          ¬ ∃ aa, aa ∈ db.assets ∧ aa.id = asset_id ∧ aa.approval_id = approval_id ∧
            (∃ a, a ∈ db.approvals ∧ a.id = aa.approval_id ∧ a.org_id = user.org_id) ∧
            pyTruthyStr aa.external_url = true)) ∧
      ((∀ a ∈ db.approvals, a.id = approval_id → a.org_id ≠ user.org_id) →
        ∃ msg, view_approval_asset db user approval_id asset_id ctx =
          .error (.notFound msg)) := by
  intro db user approval_id asset_id ctx
  constructor
  · intro hnd
    constructor
    · rintro ⟨msg, hview⟩ ⟨aa, hmem, hid, happ, ⟨a, haMem, haId, haOrg⟩, hurl⟩
      have hpaa : (aa.id == asset_id && aa.approval_id == approval_id &&
          db.approvals.any (fun a => a.id == aa.approval_id &&
            a.org_id == user.org_id)) = true := by
        simp only [Bool.and_eq_true, beq_iff_eq, List.any_eq_true]
        exact ⟨⟨hid, happ⟩, a, haMem, by simp [haId, haOrg]⟩
      cases hfind : db.assets.find? (fun aa => aa.id == asset_id &&
          aa.approval_id == approval_id &&
          db.approvals.any (fun a => a.id == aa.approval_id &&
            a.org_id == user.org_id)) with
      | none =>
        rw [List.find?_eq_none] at hfind
        exact hfind aa hmem hpaa
      | some aa2 =>
        have hp2 := List.find?_some hfind
        have hmem2 := List.mem_of_find?_eq_some hfind
        have hid2 : aa2.id = asset_id := by
          simp only [Bool.and_eq_true, beq_iff_eq] at hp2
          exact hp2.1.1
        have heq : aa2 = aa :=
          List.inj_on_of_nodup_map hnd hmem2 hmem (by rw [hid2, hid])
        subst heq
        obtain ⟨resp, hok⟩ :=
          view_ok_of_found db user approval_id asset_id ctx aa2 hfind hurl
        rw [hview] at hok
        cases hok
    · intro hnex
      cases hfind : db.assets.find? (fun aa => aa.id == asset_id &&
          aa.approval_id == approval_id &&
          db.approvals.any (fun a => a.id == aa.approval_id &&
            a.org_id == user.org_id)) with
      | none => exact ⟨"Asset not found", by simp only [view_approval_asset, hfind]⟩
      | some aa =>
        have hp := List.find?_some hfind
        have hmem := List.mem_of_find?_eq_some hfind
        simp only [Bool.and_eq_true, beq_iff_eq, List.any_eq_true] at hp
        obtain ⟨⟨hid, happ⟩, a, haMem, hpa⟩ := hp
        have hurl : pyTruthyStr aa.external_url = false := by
          cases hu : pyTruthyStr aa.external_url
          · rfl
          · exact absurd ⟨aa, hmem, hid, happ, ⟨a, haMem, hpa.1, hpa.2⟩, hu⟩ hnex
        exact ⟨"Asset URL missing", by
          simp only [view_approval_asset, hfind, hurl]
          rfl⟩
  · intro hcross
    cases hfind : db.assets.find? (fun aa => aa.id == asset_id &&
        aa.approval_id == approval_id &&
        db.approvals.any (fun a => a.id == aa.approval_id &&
          a.org_id == user.org_id)) with
    | none => exact ⟨"Asset not found", by simp only [view_approval_asset, hfind]⟩
    | some aa =>
      exfalso
      have hp := List.find?_some hfind
      simp only [Bool.and_eq_true, beq_iff_eq, List.any_eq_true] at hp
      obtain ⟨⟨_, happ⟩, a, haMem, hpa⟩ := hp
      exact hcross a haMem (hpa.1.trans happ) hpa.2

/-- C5 witness: a caller from another organization is denied the valid
`(approval, asset)` pairing of org o1, and the legitimate caller with a
bogus asset id gets NotFound as well. -/
theorem asset_view_notfound_iff_witness :
    (∃ msg, view_approval_asset sampleDB sampleOtherOrgUser "a1" "as1"
        { request_id := "r1", nowStr := "t", fetch := .timeout, bodyReadFails := false } =
      .error (.notFound msg)) := by
  exact (asset_view_notfound_iff sampleDB sampleOtherOrgUser "a1" "as1"
    { request_id := "r1", nowStr := "t", fetch := .timeout, bodyReadFails := false }).2
    (by decide)

/-- C6: for every upstream failure in the asset proxy the response is a
rendered HTML error page, never an unstructured 500: timeout → 504 and
transport error → 502 (both rendered as UNAVAILABLE), and non-200
upstream responses are classified and mapped EXPIRED→403, FORBIDDEN→403,
NOT_FOUND→404, UNAVAILABLE→503, UNKNOWN→500; every response of the
operation (success or error) carries the generated correlation identifier
header. -/
theorem asset_proxy_error_pages_and_correlation :
    ∀ (db : DB) (user : Authed) (approval_id asset_id : String) (ctx : ViewCtx)
      (aa : AssetRow),
      db.assets.find? (fun aa => aa.id == asset_id && aa.approval_id == approval_id &&
        db.approvals.any (fun a => a.id == aa.approval_id && a.org_id == user.org_id)) =
          some aa →
      pyTruthyStr aa.external_url = true →
      ((ctx.fetch = .timeout →
        view_approval_asset db user approval_id asset_id ctx = .ok
          { status_code := 504,
            body := render_error_html .UNAVAILABLE approval_id asset_id ctx.request_id
              ctx.nowStr,
            media_type := some "text/html; charset=utf-8",
            headers := [("Cache-Control", "no-store"),
                        ("X-Request-Id", ctx.request_id)] }) ∧
       (ctx.fetch = .transportError →
        view_approval_asset db user approval_id asset_id ctx = .ok
          { status_code := 502,
            body := render_error_html .UNAVAILABLE approval_id asset_id ctx.request_id
              ctx.nowStr,
            media_type := some "text/html; charset=utf-8",
            headers := [("Cache-Control", "no-store"),
                        ("X-Request-Id", ctx.request_id)] }) ∧
       (∀ r, ctx.fetch = .ok r → r.status_code ≠ 200 →
        view_approval_asset db user approval_id asset_id ctx = .ok
          { status_code :=
              match classify_upstream_error r.status_code
                  (if ctx.bodyReadFails then none else some (r.bodyText.take 10240)) with
              | .EXPIRED => 403
              | .FORBIDDEN => 403
              | .NOT_FOUND => 404
              | .UNAVAILABLE => 503
              | .UNKNOWN => 500,
            body := render_error_html
              (classify_upstream_error r.status_code
                (if ctx.bodyReadFails then none else some (r.bodyText.take 10240)))
              approval_id asset_id ctx.request_id ctx.nowStr,
            media_type := some "text/html; charset=utf-8",
            headers := [("Cache-Control", "no-store"),
                        ("X-Request-Id", ctx.request_id)] }) ∧
       (∀ resp, view_approval_asset db user approval_id asset_id ctx = .ok resp →
        ("X-Request-Id", ctx.request_id) ∈ resp.headers)) := by
  intro db user approval_id asset_id ctx aa hfind hurl
  refine ⟨?_, ?_, ?_, ?_⟩
  · intro hf
    simp only [view_approval_asset, hfind, hurl, Bool.not_true, hf]
    rw [if_neg (by simp)]
    rfl
  · intro hf
    simp only [view_approval_asset, hfind, hurl, Bool.not_true, hf]
    rw [if_neg (by simp)]
    rfl
  · intro r hf hs
    simp only [view_approval_asset, hfind, hurl, Bool.not_true, hf]
    rw [if_neg (by simp)]
    rw [if_pos hs]
    cases hk : classify_upstream_error r.status_code
        (if ctx.bodyReadFails then none else some (r.bodyText.take 10240)) <;> rfl
  · intro resp hok
    simp only [view_approval_asset, hfind, hurl, Bool.not_true] at hok
    rw [if_neg (by simp)] at hok
    cases hfetch : ctx.fetch with
    | timeout =>
      rw [hfetch] at hok
      cases hok
      simp [htmlErrorResponse]
    | transportError =>
      rw [hfetch] at hok
      cases hok
      simp [htmlErrorResponse]
    | otherError =>
      rw [hfetch] at hok
      cases hok
      simp [htmlErrorResponse]
    | ok r =>
      rw [hfetch] at hok
      dsimp only at hok
      by_cases hs : r.status_code ≠ 200
      · rw [if_pos hs] at hok
        cases hok
        simp [htmlErrorResponse]
      · rw [if_neg hs] at hok
        cases hok
        simp

/-- C6 witness: the concrete timeout case yields the rendered UNAVAILABLE
page with status 504 and the correlation header. -/
theorem asset_proxy_error_pages_and_correlation_witness :
    view_approval_asset sampleDB sampleUser "a1" "as1"
        { request_id := "r1", nowStr := "ts", fetch := .timeout, bodyReadFails := false } =
      .ok { status_code := 504,
            body := render_error_html .UNAVAILABLE "a1" "as1" "r1" "ts",
            media_type := some "text/html; charset=utf-8",
            headers := [("Cache-Control", "no-store"), ("X-Request-Id", "r1")] } := by
  exact (asset_proxy_error_pages_and_correlation sampleDB sampleUser "a1" "as1"
    { request_id := "r1", nowStr := "ts", fetch := .timeout, bodyReadFails := false }
    sampleAsset rfl rfl).1 rfl

/-- C7 witness: a concrete approve whose webhook returns 500 still yields
an ok envelope. -/
theorem approve_envelope_always_ok_witness :
    ∃ resp, (approve_approval sampleDB sampleUser "a1"
        { now := 5, assetFetchFails := false, net := .response 500 }).result =
          .ok resp ∧ resp.ok = true := by
  exact (approve_envelope_always_ok sampleDB sampleUser "a1"
    { now := 5, assetFetchFails := false, net := .response 500 }).2
    sampleApproval rfl rfl

end Approvals
